import Mathlib

set_option maxRecDepth 100000

/-!
Verification development for the Divergence-Counter render server
(`render.py`).  The definitions below are a shallow embedding of the
render-job orchestration layer: the deduplicating `Queue`, the flicker
animation generator inside `Renderer.animate_display`, the worker loop
`Renderer.process_queue`, the enqueue helper `Renderer.__call__`
(`renderCall` here), the digit-string guard `set_display_number`, and
the request router `serve`.  Python floats (`random.random()` draws and
the probability constants) are modelled as rationals; the ambient random
source is modelled as an explicit stream of draws (`Rng`).
-/

namespace DC

/-- Fixed display width (`DIGITS = 8` in `render.py`). -/
def DIGITS : ℕ := 8

/-- The `Chances` dataclass: constants determining tube flickering
animation probabilities and duration.  The field `k` models the instance
attribute literally named `"k"` that the constructor's update loop
`self.chances.k = v` creates (see `applyChances`); the Python class has
no such attribute until that loop runs. -/
structure Chances where
  START : ℚ
  SKIP_DIM : ℚ
  DURATION_MIN : ℕ
  DURATION_MAX : ℕ
  k : Option ℚ
deriving DecidableEq, Repr

/-- Default values of the `Chances` dataclass: `START = 0.01`,
`SKIP_DIM = 0.5`, `DURATION_MIN = 0`, `DURATION_MAX = 5`.  The two
probabilities are written with the `Rat` constructor (`1/100` and `1/2`
in lowest terms) so that they evaluate inside kernel reduction. -/
def chancesDefault : Chances :=
  { START := ⟨1, 100, by norm_num, by norm_num⟩,
    SKIP_DIM := ⟨1, 2, by norm_num, by norm_num⟩,
    DURATION_MIN := 0, DURATION_MAX := 5, k := none }

/-- `Renderer.__init__` runs `for k, v in chances.items(): self.chances.k = v`.
The assignment target is the literal attribute name `k`, so every supplied
pair only overwrites the attribute `k`; the constants `START`, `SKIP_DIM`,
`DURATION_MIN`, `DURATION_MAX` are never touched. -/
def applyChances (base : Chances) (updates : List (String × ℚ)) : Chances :=
  updates.foldl (fun c kv => { c with k := some kv.2 }) base

/-- Material state of one tube for one frame: `self.on_mat`,
`self.off_mat`, `self.half_mat` in the source. -/
inductive Mat where
  | on : Mat
  | off : Mat
  | half : Mat
deriving DecidableEq, Repr

/-- Explicit stream of random draws, standing for the ambient
`random` module: `floats` enumerates the successive `random.random()`
results, `nats` the successive raw draws consumed by `random.randint`. -/
structure Rng where
  floats : ℕ → ℚ
  nats : ℕ → ℕ
  fi : ℕ
  ni : ℕ

/-- Consume one `random.random()` draw. -/
def Rng.bumpF (g : Rng) : Rng := { g with fi := g.fi + 1 }

/-- Consume one `random.randint` draw. -/
def Rng.bumpN (g : Rng) : Rng := { g with ni := g.ni + 1 }

/-- `random.randint(a, b)`: a uniform integer of the inclusive range
`[a, b]` (the library contract, assuming `a ≤ b`), realised from a raw
draw `n` by reduction modulo the size of the range. -/
def randint (a b n : ℕ) : ℕ := a + n % (b - a + 1)

/-- The mutable state of one pass of `Renderer.animate_display`:
the per-tube material list `state`, the per-tube countdown list
`durations` (number of frames the tube stays off), and the position in
the random stream. -/
structure FlickerSt where
  state : List Mat
  durations : List ℕ
  rng : Rng

/-- Consume one `random.random()` draw of the flicker state. -/
def FlickerSt.bumpF (st : FlickerSt) : FlickerSt := { st with rng := st.rng.bumpF }

/-- Lines 245-252 of `render.py`, for tube `i`:
`if durations[i]: durations[i] -= 1; state[i] = off_mat;`
`  if durations[i] and random.random() < SKIP_DIM: state[i] = half_mat`
`else: state[i] = on_mat`.
The skip-dim draw is only consumed when the decremented countdown is
still nonzero (Python short-circuit). -/
def countdownUpdate (c : Chances) (st : FlickerSt) (i : ℕ) : FlickerSt :=
  if st.durations.getD i 0 ≠ 0 then
    if st.durations.getD i 0 - 1 ≠ 0 then
      if st.rng.floats st.rng.fi < c.SKIP_DIM then
        { state := (st.state.set i Mat.off).set i Mat.half,
          durations := st.durations.set i (st.durations.getD i 0 - 1),
          rng := st.rng.bumpF }
      else
        { state := st.state.set i Mat.off,
          durations := st.durations.set i (st.durations.getD i 0 - 1),
          rng := st.rng.bumpF }
    else
      { state := st.state.set i Mat.off,
        durations := st.durations.set i (st.durations.getD i 0 - 1),
        rng := st.rng }
  else { st with state := st.state.set i Mat.on }

/-- Line 254 of `render.py`:
`neighbour_active = durations[(i - 1) % DIGITS] or durations[(i + 1) % DIGITS]`,
read from the durations list as it stands when tube `i` is processed.
Python's `(i - 1) % DIGITS` on `0 ≤ i < DIGITS` equals
`(i + DIGITS - 1) % DIGITS`. -/
def neighbourActive (st : FlickerSt) (i : ℕ) : Bool :=
  (st.durations.getD ((i + DIGITS - 1) % DIGITS) 0 != 0) ||
  (st.durations.getD ((i + 1) % DIGITS) 0 != 0)

/-- Lines 256-258 of `render.py`, executed when a flicker starts:
`if random.random() < SKIP_DIM: state[i] = half_mat`
`durations[i] = random.randint(DURATION_MIN, DURATION_MAX)`. -/
def startUpdate (c : Chances) (st : FlickerSt) (i : ℕ) : FlickerSt :=
  if st.rng.floats st.rng.fi < c.SKIP_DIM then
    { state := st.state.set i Mat.half,
      durations := st.durations.set i
        (randint c.DURATION_MIN c.DURATION_MAX (st.rng.nats st.rng.ni)),
      rng := st.rng.bumpF.bumpN }
  else
    { state := st.state,
      durations := st.durations.set i
        (randint c.DURATION_MIN c.DURATION_MAX (st.rng.nats st.rng.ni)),
      rng := st.rng.bumpF.bumpN }

/-- Line 255 of `render.py`:
`if random.random() < self.chances.START and not neighbour_active:`,
evaluated on the state `st1` left by the countdown update of tube `i`
(the `P_start` draw is always consumed; the neighbour test
short-circuits after it). -/
def startGuard (c : Chances) (st1 : FlickerSt) (i : ℕ) : Bool :=
  decide (st1.rng.floats st1.rng.fi < c.START) && ! neighbourActive st1 i

/-- One tube's slice of the per-frame loop body (lines 245-258): the
countdown update, then the start check, then on a start the skip-dim
draw and the `randint` duration sample.  Returns the updated state and
whether tube `i` started a new flicker. -/
def tubeStep (c : Chances) (st : FlickerSt) (i : ℕ) : FlickerSt × Bool :=
  if startGuard c (countdownUpdate c st i) i then
    (startUpdate c (countdownUpdate c st i).bumpF i, true)
  else ((countdownUpdate c st i).bumpF, false)

/-- Fold step accumulating the per-tube started flags of one frame. -/
def tubeAcc (c : Chances) (acc : FlickerSt × List Bool) (i : ℕ) : FlickerSt × List Bool :=
  let r := tubeStep c acc.1 i
  (r.1, acc.2 ++ [r.2])

/-- State of the frame pass after the tubes `0, …, i-1` have been
processed (the inner `for i in range(DIGITS)` loop, stopped after `i`
iterations), together with their started flags. -/
def frameUpTo (c : Chances) (st : FlickerSt) (i : ℕ) : FlickerSt × List Bool :=
  (List.range i).foldl (tubeAcc c) (st, [])

/-- One complete frame of the flicker loop (lines 243-258): the tube
loop over `range(DIGITS)`. -/
def frameStep (c : Chances) (st : FlickerSt) : FlickerSt × List Bool :=
  frameUpTo c st DIGITS

/-- The deduplicating `Queue` of `render.py` (lines 80-89): the
insertion-ordered key list of its `OrderedDict` (values are all
`None`). -/
structure Queue where
  data : List ℕ
deriving DecidableEq, Repr

/-- A freshly constructed `Queue` (`self.data = OrderedDict()`). -/
def Queue.empty : Queue := ⟨[]⟩

/-- `Queue.__call__` (append): `if item not in self.data:
self.data[item] = None` — a no-op when the item is already present,
otherwise appended at the tail. -/
def Queue.push (q : Queue) (v : ℕ) : Queue :=
  if v ∈ q.data then q else ⟨q.data ++ [v]⟩

/-- `Queue.pop`: `self.data.popitem(last=False)[0] if self.data else
None` — removes and returns the head, or returns `None` leaving the
queue empty. -/
def Queue.pop (q : Queue) : Option ℕ × Queue :=
  match q.data with
  | [] => (none, ⟨[]⟩)
  | x :: xs => (some x, ⟨xs⟩)

/-- `n` successive pushes of the same value. -/
def pushN (q : Queue) (v : ℕ) : ℕ → Queue
  | 0 => q
  | k + 1 => (pushN q v k).push v

/-- The pop policy of `Renderer.process_queue` (lines 197-199):
`number = self.queue.pop()`; `if number is None: number =
self.rerender.pop()`.  Returns the popped value (if any) and the two
queues afterwards. -/
def schedPop (fresh refresh : Queue) : Option ℕ × Queue × Queue :=
  match fresh.pop with
  | (some n, f2) => (some n, f2, refresh)
  | (none, f2) =>
    match refresh.pop with
    | (r, r2) => (r, f2, r2)

/-- `k` successive scheduler pops, collecting the returned values. -/
def drainN : ℕ → Queue → Queue → List (Option ℕ)
  | 0, _, _ => []
  | k + 1, f, r =>
    match schedPop f r with
    | (v, f2, r2) => v :: drainN k f2 r2

/-- The filesystem state seen by the orchestration layer: the values
`v` with a `{v}.webp` file in the staging directory
(`RENDER_OUTPUT_DIR`) and in the durable cache (`CACHE_DIR`). -/
structure Store where
  staging : List ℕ
  cache : List ℕ
deriving DecidableEq, Repr

/-- Lines 298-299 of `serve`: `if source_path.exists():
shutil.move(source_path, cache_path)` — promotion of a staged asset
into the durable cache. -/
def promote (st : Store) (v : ℕ) : Store :=
  if v ∈ st.staging then { staging := st.staging.erase v, cache := st.cache.insert v }
  else st

/-- `Renderer.__call__` (lines 182-191): push each number into the
fresh queue unless a `{number}.webp` already exists in the cache or the
staging directory. -/
def renderCall (st : Store) (fresh : Queue) (numbers : List ℕ) : Queue :=
  numbers.foldl (fun q n => if n ∈ st.cache ∨ n ∈ st.staging then q else q.push n) fresh

/-- Result of one request to `serve`: the filesystem afterwards, the
two queues afterwards, and whether the request was answered with the
`404` not-yet-available response. -/
structure ServeOutcome where
  store : Store
  fresh : Queue
  refresh : Queue
  notFound : Bool
deriving DecidableEq, Repr

/-- The request router `serve` (lines 285-312): compute `future_paths`
(existence of `{number+LOOKAHEAD}.webp` in staging or cache, checked
before the promotion move), promote any staged copy of the requested
value, then either enqueue the whole lookahead window
`range(number, number + LOOKAHEAD + 1)` through `Renderer.__call__`
(when the value is not cached or the far window member is absent) or
enqueue the value alone for re-rendering; finally `404` when the value
is still not in the durable cache. -/
def serve (lookahead : ℕ) (st : Store) (fresh refresh : Queue) (v : ℕ) : ServeOutcome :=
  let futurePaths := (v + lookahead) ∈ st.staging ∨ (v + lookahead) ∈ st.cache
  let st1 := promote st v
  if v ∉ st1.cache ∨ ¬ futurePaths then
    { store := st1,
      fresh := renderCall st1 fresh ((List.range (lookahead + 1)).map (v + ·)),
      refresh := refresh,
      notFound := decide (v ∉ st1.cache) }
  else
    { store := st1, fresh := fresh, refresh := refresh.push v,
      notFound := decide (v ∉ st1.cache) }

/-- State carried by the worker loop `Renderer.process_queue`: the two
queues, the filesystem, and the log of errors written by
`logger.error(ex)`. -/
structure WorkerState where
  fresh : Queue
  refresh : Queue
  store : Store
  log : List String
deriving DecidableEq, Repr

/-- One iteration of the `while True:` body of
`Renderer.process_queue` (lines 195-203): pop (fresh first, then
refresh); when a value was popped, run the offloaded
`animate_display` job `runJob`, and catch any exception it raises by
logging it (`except Exception as ex: logger.error(ex)`) and carrying
on.  `runJob` returns the new filesystem state or raises with an error
message. -/
def processIteration (runJob : ℕ → Store → Except String Store) (s : WorkerState) :
    WorkerState :=
  match schedPop s.fresh s.refresh with
  | (none, f2, r2) => { s with fresh := f2, refresh := r2 }
  | (some n, f2, r2) =>
    match runJob n s.store with
    | .ok st2 => { fresh := f2, refresh := r2, store := st2, log := s.log }
    | .error e => { fresh := f2, refresh := r2, store := s.store, log := s.log ++ [e] }

/-- The `while True:` worker loop, unrolled for `k` iterations. -/
def processLoop (runJob : ℕ → Store → Except String Store) (s : WorkerState) :
    ℕ → WorkerState
  | 0 => s
  | k + 1 => processIteration runJob (processLoop runJob s k)

/-- The suspension-relevant actions of one iteration of the
`while True:` loop of `Renderer.process_queue`: the two queue pops, the
`await asyncio.to_thread(self.animate_display, …)` of a popped job, and
an idle suspension (a sleep or equivalent yield between emptiness
checks). -/
inductive Action where
  | popFresh : Action
  | popRefresh : Action
  | awaitJob : ℕ → Action
  | sleep : Action
deriving DecidableEq, Repr

/-- The action trace of one iteration of the loop body, read off lines
195-203: the fresh pop always runs; the refresh pop runs only when the
fresh pop returned `None`; the job await runs only when a value was
popped.  The body contains no sleep or other idle suspension point, so
`Action.sleep` never appears. -/
def iterationTrace (fresh refresh : Queue) : List Action :=
  match fresh.pop with
  | (some n, _) => [Action.popFresh, Action.awaitJob n]
  | (none, _) =>
    match refresh.pop with
    | (some n, _) => [Action.popFresh, Action.popRefresh, Action.awaitJob n]
    | (none, _) => [Action.popFresh, Action.popRefresh]

/-- Number of digits of the decimal representation `str(n)` of a
non-negative integer. -/
def decLen (n : ℕ) : ℕ :=
  if h : n < 10 then 1 else decLen (n / 10) + 1
decreasing_by exact Nat.div_lt_self (by omega) (by norm_num)

/-- The `ValueError` message of `Renderer.set_display_number`:
`f"{number} has more than {DIGITS} digits!"`. -/
def tooManyDigitsMsg (number : ℕ) : String :=
  toString number ++ " has more than 8 digits!"

/-- The digit-string guard of `Renderer.set_display_number` (lines
205-210): `str(number).zfill(DIGITS)` has length
`max (decLen number) DIGITS`, and a length exceeding `DIGITS` raises
`ValueError`.  The scene mutation below the guard mutates external
`bpy` objects and is not modelled; the `state` list passed by
`animate_display` always has length `DIGITS`, so the second guard never
fires there. -/
def set_display_number (number : ℕ) : Except String Unit :=
  if DIGITS < max (decLen number) DIGITS then .error (tooManyDigitsMsg number)
  else .ok ()

/-- The frame loop of `Renderer.animate_display` (lines 240-261) with
the given number of frames still to go: each frame applies the flicker
logic (`frameStep`), then calls `set_display_number` (which raises for
values wider than `DIGITS` digits), then renders one frame (an external
`bpy` call, modelled as always succeeding).  Returns the number of
frames successfully rendered, the final flicker state, and the first
raised error, if any. -/
def animateLoop (c : Chances) (number : ℕ) : ℕ → FlickerSt → ℕ × FlickerSt × Option String
  | 0, fl => (0, fl, none)
  | k + 1, fl =>
    let fl1 := (frameStep c fl).1
    match set_display_number number with
    | .error e => (0, fl1, some e)
    | .ok _ =>
      match animateLoop c number k fl1 with
      | (done, fl2, err) => (done + 1, fl2, err)

/-- `Renderer.animate_display` (lines 232-282): the flicker state
starts all-ON with all countdowns zero, the frame loop runs inside a
temporary directory, and on success the ffmpeg encode writes
`{number}.webp` into the staging directory (modelled as inserting
`number` into `staging`).  When any frame raises, the exception
propagates: nothing is encoded and the filesystem is unchanged. -/
def animate_display (c : Chances) (totalFrames number : ℕ) (rng : Rng) (st : Store) :
    (ℕ × Option String) × Store :=
  let fl0 : FlickerSt :=
    { state := List.replicate DIGITS Mat.on,
      durations := List.replicate DIGITS 0, rng := rng }
  match animateLoop c number totalFrames fl0 with
  | (done, _, some e) => ((done, some e), st)
  | (done, _, none) => ((done, none), { st with staging := st.staging.insert number })

/-- Draw stream for the `C1` counterexample: the second
`random.random()` draw (tube 1's `P_start` draw) is `0` and succeeds,
the third (tube 1's skip-dim draw) is `9/10`; every other float draw
is `1/2` and every `P_start` test with it fails; every raw `randint`
draw is `3`. -/
def c1Rng : Rng :=
  { floats := fun n =>
      if n = 1 then 0
      else if n = 2 then ⟨9, 10, by norm_num, by norm_num⟩
      else ⟨1, 2, by norm_num, by norm_num⟩,
    nats := fun _ => 3, fi := 0, ni := 0 }

/-- Pre-frame state for the `C1` counterexample: tube 0 has one
remaining off frame, all other countdowns are zero. -/
def c1St : FlickerSt :=
  { state := List.replicate DIGITS Mat.on,
    durations := [1, 0, 0, 0, 0, 0, 0, 0], rng := c1Rng }

/-- Draw stream for the `C3` counterexample and witness: tube 0's
`P_start` draw is `0` and succeeds, its skip-dim draw is `9/10` and
fails; every other draw is `9/10`; every raw `randint` draw is `3`. -/
def c3Rng : Rng :=
  { floats := fun n => if n = 0 then 0 else ⟨9, 10, by norm_num, by norm_num⟩,
    nats := fun _ => 3, fi := 0, ni := 0 }

/-- Idle pre-frame state (all tubes ON, all countdowns zero) with the
`C3` draw stream. -/
def c3St : FlickerSt :=
  { state := List.replicate DIGITS Mat.on,
    durations := List.replicate DIGITS 0, rng := c3Rng }

/-- Draw stream for the `C8` zero-duration scenario: tube 0's `P_start`
draw is `0` and succeeds, its skip-dim draw is `0` and succeeds (the
starting state is HALF); every other float draw is `9/10`; every raw
`randint` draw is `0`, so the sampled duration is
`randint 0 5 0 = 0`. -/
def c8Rng : Rng :=
  { floats := fun n =>
      if n = 0 then 0 else if n = 1 then 0 else ⟨9, 10, by norm_num, by norm_num⟩,
    nats := fun _ => 0, fi := 0, ni := 0 }

/-- Idle pre-frame state (all tubes ON, all countdowns zero) with the
`C8` draw stream. -/
def c8St : FlickerSt :=
  { state := List.replicate DIGITS Mat.on,
    durations := List.replicate DIGITS 0, rng := c8Rng }

/-- All-idle flicker state whose neighbour tube 1 has a nonzero
countdown, used to witness the amended `C1` theorem at tube 0. -/
def w1St : FlickerSt :=
  { state := List.replicate DIGITS Mat.on,
    durations := [0, 5, 0, 0, 0, 0, 0, 0],
    rng := { floats := fun _ => ⟨1, 2, by norm_num, by norm_num⟩,
             nats := fun _ => 0, fi := 0, ni := 0 } }

/-- Worker state used to witness the `C6` theorem: one job in the
fresh queue, nothing cached, empty log. -/
def c6S : WorkerState :=
  { fresh := ⟨[7]⟩, refresh := ⟨[]⟩, store := { staging := [], cache := [] }, log := [] }

/-! ## Helper lemmas -/

theorem getD_set_ne {α : Type} (l : List α) (i j : ℕ) (a d : α) (h : i ≠ j) :
    (l.set i a).getD j d = l.getD j d := by
  simp [List.getD_eq_getD_get?, List.get?_eq_getElem?, List.getElem?_set_ne h]

theorem getD_set_self {α : Type} (l : List α) (i : ℕ) (a d : α) (h : i < l.length) :
    (l.set i a).getD i d = a := by
  rw [List.getD_eq_getElem _ _ (by simpa using h)]
  simp

/-- The countdown update of tube `i` leaves every other tube's
countdown unchanged. -/
theorem countdownUpdate_durations_ne (c : Chances) (st : FlickerSt) (i j : ℕ) (h : j ≠ i) :
    (countdownUpdate c st i).durations.getD j 0 = st.durations.getD j 0 := by
  unfold countdownUpdate
  split_ifs <;> first
    | rfl
    | exact getD_set_ne _ _ _ _ _ (fun e => h e.symm)

theorem countdownUpdate_durations_length (c : Chances) (st : FlickerSt) (i : ℕ) :
    (countdownUpdate c st i).durations.length = st.durations.length := by
  unfold countdownUpdate
  split_ifs <;> simp [FlickerSt.bumpF]

theorem countdownUpdate_state_length (c : Chances) (st : FlickerSt) (i : ℕ) :
    (countdownUpdate c st i).state.length = st.state.length := by
  unfold countdownUpdate
  split_ifs <;> simp [FlickerSt.bumpF]

/-- When tube `i` has no active countdown, the countdown update only
turns its material ON (and consumes no draw). -/
theorem countdownUpdate_of_zero (c : Chances) (st : FlickerSt) (i : ℕ)
    (h : st.durations.getD i 0 = 0) :
    countdownUpdate c st i = { st with state := st.state.set i Mat.on } := by
  unfold countdownUpdate
  rw [if_neg (by simpa using h)]

theorem frameUpTo_succ (c : Chances) (st : FlickerSt) (i : ℕ) :
    frameUpTo c st (i + 1) = tubeAcc c (frameUpTo c st i) i := by
  unfold frameUpTo
  rw [List.range_succ, List.foldl_append, List.foldl_cons, List.foldl_nil]

theorem frameUpTo_flags_length (c : Chances) (st : FlickerSt) (i : ℕ) :
    (frameUpTo c st i).2.length = i := by
  induction i with
  | zero => rfl
  | succ k ih => rw [frameUpTo_succ]; simp [tubeAcc, ih]

/-- Once tube `i` has been processed, its started flag is unchanged by
the later tubes of the same frame. -/
theorem frameUpTo_flag_stable (c : Chances) (st : FlickerSt) (i j : ℕ) (h : i < j) :
    (frameUpTo c st j).2.getD i false = (frameUpTo c st (i + 1)).2.getD i false := by
  induction j with
  | zero => omega
  | succ k ih =>
    rcases Nat.lt_or_ge i k with hk | hk
    · rw [frameUpTo_succ]
      have hlen : i < (frameUpTo c st k).2.length := by
        rw [frameUpTo_flags_length]; exact hk
      simp only [tubeAcc]
      rw [List.getD_append _ _ _ _ hlen, ih hk]
    · have : k = i := by omega
      subst this; rfl

/-- The started flag of tube `i` in a full frame is the flag produced
by its own `tubeStep`, run on the state left by the tubes before it. -/
theorem frameStep_flag (c : Chances) (st : FlickerSt) (i : ℕ) (h : i < DIGITS) :
    (frameStep c st).2.getD i false = (tubeStep c (frameUpTo c st i).1 i).2 := by
  rw [frameStep, frameUpTo_flag_stable c st i DIGITS h, frameUpTo_succ]
  have hlen : (frameUpTo c st i).2.length = i := frameUpTo_flags_length c st i
  simp only [tubeAcc]
  rw [List.getD_append_right _ _ _ _ (le_of_eq hlen)]
  simp [hlen]

/-- `random.randint(a, b)` with `a ≤ b` always lands in `[a, b]`. -/
theorem randint_le (a b n : ℕ) (h : a ≤ b) : a ≤ randint a b n ∧ randint a b n ≤ b := by
  unfold randint
  have := Nat.mod_lt n (show 0 < b - a + 1 by omega)
  omega

theorem push_mem_of_mem (q : Queue) (u v : ℕ) (h : u ∈ q.data) : u ∈ (q.push v).data := by
  unfold Queue.push
  split_ifs <;> simp [h]

theorem push_mem_self (q : Queue) (v : ℕ) : v ∈ (q.push v).data := by
  unfold Queue.push
  split_ifs with h <;> simp [h]

theorem renderCall_mem_mono (st : Store) (numbers : List ℕ) (fresh : Queue) (u : ℕ)
    (h : u ∈ fresh.data) : u ∈ (renderCall st fresh numbers).data := by
  induction numbers generalizing fresh with
  | nil => exact h
  | cons x xs ih =>
    unfold renderCall
    rw [List.foldl_cons]
    refine ih _ ?_
    split_ifs
    · exact h
    · exact push_mem_of_mem _ _ _ h

/-- Every listed number that is neither cached nor staged ends up in
the fresh queue after `Renderer.__call__`. -/
theorem renderCall_mem (st : Store) (numbers : List ℕ) (fresh : Queue) (w : ℕ)
    (hw : w ∈ numbers) (hc : w ∉ st.cache) (hs : w ∉ st.staging) :
    w ∈ (renderCall st fresh numbers).data := by
  induction numbers generalizing fresh with
  | nil => simp at hw
  | cons x xs ih =>
    unfold renderCall
    rw [List.foldl_cons]
    rcases List.mem_cons.mp hw with hx | hx
    · subst hx
      refine renderCall_mem_mono _ _ _ _ ?_
      rw [if_neg (by tauto)]
      exact push_mem_self _ _
    · exact ih _ hx

theorem mem_promote_cache (st : Store) (v : ℕ) :
    v ∈ (promote st v).cache ↔ v ∈ st.cache ∨ v ∈ st.staging := by
  unfold promote
  split_ifs with h <;> simp [List.mem_insert_iff, h]

theorem not_mem_promote (st : Store) (v w : ℕ) (hc : w ∉ st.cache) (hs : w ∉ st.staging) :
    w ∉ (promote st v).cache ∧ w ∉ (promote st v).staging := by
  unfold promote
  split_ifs with h
  · refine ⟨?_, ?_⟩
    · intro hmem
      rcases List.mem_insert_iff.mp hmem with rfl | hmem
      · exact hs h
      · exact hc hmem
    · intro hmem
      exact hs (List.mem_of_mem_erase hmem)
  · exact ⟨hc, hs⟩

/-- Membership in the lookahead window `range(v, v + L + 1)`. -/
theorem mem_window (L v w : ℕ) :
    w ∈ (List.range (L + 1)).map (v + ·) ↔ v ≤ w ∧ w ≤ v + L := by
  simp only [List.mem_map, List.mem_range]
  constructor
  · rintro ⟨k, hk, rfl⟩; omega
  · rintro ⟨h1, h2⟩; exact ⟨w - v, by omega, by omega⟩

theorem decLen_pos (n : ℕ) : 1 ≤ decLen n := by
  rw [decLen]
  split <;> omega

/-- Pushing the same absent value `n ≥ 1` times leaves exactly one
occurrence. -/
theorem pushN_count (q : Queue) (v : ℕ) (n : ℕ) (h1 : 1 ≤ n) (h2 : v ∉ q.data) :
    (pushN q v n).data.count v = 1 := by
  induction n with
  | zero => omega
  | succ k ih =>
    rcases Nat.eq_zero_or_pos k with rfl | hk
    · simp only [pushN]
      unfold Queue.push
      rw [if_neg h2]
      simp [List.count_append, List.count_eq_zero.mpr h2]
    · have hcount := ih hk
      have hmem : v ∈ (pushN q v k).data := List.count_pos_iff.mp (by omega)
      simp only [pushN]
      unfold Queue.push
      rw [if_pos hmem]
      exact hcount

/-- A value of at least `10 ^ k` has more than `k` decimal digits. -/
theorem pow_le_decLen (k : ℕ) : ∀ n, 10 ^ k ≤ n → k + 1 ≤ decLen n := by
  induction k with
  | zero => intro n _; exact decLen_pos n
  | succ k ih =>
    intro n hn
    have h10 : ¬ n < 10 := by
      have h1 : (10 : ℕ) = 10 ^ 1 := (pow_one 10).symm
      have h2 : (10 : ℕ) ^ 1 ≤ 10 ^ (k + 1) := Nat.pow_le_pow_right (by omega) (by omega)
      omega
    rw [decLen]
    rw [dif_neg h10]
    have hdiv : 10 ^ k ≤ n / 10 := by
      rw [Nat.le_div_iff_mul_le (by omega)]
      have : 10 ^ k * 10 = 10 ^ (k + 1) := by ring
      omega
    have := ih (n / 10) hdiv
    omega

/-! ## Claim theorems -/

/-- C1 counterexample: with tube 0 one frame from reactivating
(`remainingOffFrames = 1` pre-frame) and a draw stream whose only
successful `P_start` test belongs to tube 1, the pre-frame countdown of
tube 1's cyclic left neighbour `(1-1) % DIGITS = 0` is nonzero, yet
tube 1 does start a new flicker in that frame — because tube 0's
countdown was already decremented to zero earlier in the same pass.
This refutes the claim that the suppression check reads the pre-frame
neighbour state. -/
theorem C1_counterexample :
    c1St.durations.getD ((1 + DIGITS - 1) % DIGITS) 0 ≠ 0 ∧
    (frameStep chancesDefault c1St).2.getD 1 false = true := by decide

/-- C1 (amended): the neighbour-suppression check reads the countdown
array as it stands when tube `i` is processed — tubes `0, …, i-1`
already updated in this frame's pass, tubes `i+1, …` still pre-frame.
Whenever either cyclic neighbour's countdown is nonzero *in that
in-pass state*, tube `i` does not start a new flicker, regardless of
the `P_start` draw. -/
theorem C1_theorem (c : Chances) (st : FlickerSt) (i : ℕ) (hi : i < DIGITS)
    (hnb : (frameUpTo c st i).1.durations.getD ((i + DIGITS - 1) % DIGITS) 0 ≠ 0 ∨
           (frameUpTo c st i).1.durations.getD ((i + 1) % DIGITS) 0 ≠ 0) :
    (frameStep c st).2.getD i false = false := by
  rw [frameStep_flag c st i hi]
  have hi8 : i < 8 := by simpa [DIGITS] using hi
  have hL : (i + DIGITS - 1) % DIGITS ≠ i := by simp only [DIGITS]; omega
  have hR : (i + 1) % DIGITS ≠ i := by simp only [DIGITS]; omega
  have hneigh : neighbourActive (countdownUpdate c (frameUpTo c st i).1 i) i = true := by
    unfold neighbourActive
    rw [countdownUpdate_durations_ne _ _ _ _ hL, countdownUpdate_durations_ne _ _ _ _ hR]
    simp only [Bool.or_eq_true, bne_iff_ne, ne_eq]
    tauto
  simp [tubeStep, startGuard, hneigh]

/-- C1 witness: at tube 0 with neighbour tube 1 holding a nonzero
countdown, the amended theorem applies and tube 0 does not start. -/
theorem C1_witness : (frameStep chancesDefault w1St).2.getD 0 false = false :=
  C1_theorem chancesDefault w1St 0 (by decide) (Or.inr (by decide))

/-- C3 counterexample: from the all-idle state, tube 0 starts a new
flicker (its `P_start` draw is `0`) and its skip-dim draw `9/10` fails,
but the displayed state of the starting frame is ON, not OFF: the start
branch only ever upgrades the already-computed state to HALF, it never
writes OFF. -/
theorem C3_counterexample :
    (frameStep chancesDefault c3St).2.getD 0 false = true ∧
    (frameStep chancesDefault c3St).1.state.getD 0 Mat.off = Mat.on := by decide

/-- C3 (amended): whenever a tube starts a new flicker — whether it was
idle or a countdown was still running (the start check is not gated on
`durations[i] == 0`) — its `remainingOffFrames` is the `randint` sample
and lies in `[DURATION_MIN, DURATION_MAX]`, and its displayed state for
the starting frame is HALF when the skip-dim draw succeeds and
otherwise keeps whatever the countdown step of this frame wrote (ON for
an idle tube, OFF or HALF mid-countdown) — it is never set to OFF by
the start branch.  The skip-dim draw is the float draw after the
`P_start` draw, i.e. the one at position `fi + 1` of the
post-countdown random stream. -/
theorem C3_theorem (c : Chances) (st : FlickerSt) (i : ℕ)
    (his : i < st.state.length)
    (hid : i < st.durations.length)
    (hmm : c.DURATION_MIN ≤ c.DURATION_MAX)
    (hstart : (tubeStep c st i).2 = true) :
    (c.DURATION_MIN ≤ (tubeStep c st i).1.durations.getD i 0 ∧
     (tubeStep c st i).1.durations.getD i 0 ≤ c.DURATION_MAX) ∧
    ((countdownUpdate c st i).rng.floats ((countdownUpdate c st i).rng.fi + 1) <
        c.SKIP_DIM →
      (tubeStep c st i).1.state.getD i Mat.off = Mat.half) ∧
    (¬ (countdownUpdate c st i).rng.floats ((countdownUpdate c st i).rng.fi + 1) <
        c.SKIP_DIM →
      (tubeStep c st i).1.state.getD i Mat.off =
        (countdownUpdate c st i).state.getD i Mat.off) := by
  by_cases hg : startGuard c (countdownUpdate c st i) i = true
  · simp only [tubeStep, hg, if_true]
    unfold startUpdate
    simp only [FlickerSt.bumpF, Rng.bumpF, Rng.bumpN]
    have hlenS : i < (countdownUpdate c st i).state.length := by
      rw [countdownUpdate_state_length]
      exact his
    have hlenD : i < (countdownUpdate c st i).durations.length := by
      rw [countdownUpdate_durations_length]
      exact hid
    by_cases hr : (countdownUpdate c st i).rng.floats
        ((countdownUpdate c st i).rng.fi + 1) < c.SKIP_DIM
    · rw [if_pos hr]
      refine ⟨?_, ?_, ?_⟩
      · rw [getD_set_self _ _ _ _ hlenD]
        exact randint_le _ _ _ hmm
      · intro _
        rw [getD_set_self _ _ _ _ hlenS]
      · intro hcon; exact absurd hr hcon
    · rw [if_neg hr]
      refine ⟨?_, ?_, ?_⟩
      · rw [getD_set_self _ _ _ _ hlenD]
        exact randint_le _ _ _ hmm
      · intro hcon; exact absurd hcon hr
      · intro _; rfl
  · simp [tubeStep, hg] at hstart

/-- C3 witness: tube 0 of `c3St` (idle, so the countdown step wrote ON)
starts a flicker; its sampled duration is within `[0, 5]` and, its
skip-dim draw failing, its starting state is the countdown step's ON,
not OFF. -/
theorem C3_witness :
    ((chancesDefault.DURATION_MIN ≤
        (tubeStep chancesDefault c3St 0).1.durations.getD 0 0 ∧
      (tubeStep chancesDefault c3St 0).1.durations.getD 0 0 ≤
        chancesDefault.DURATION_MAX) ∧
     ((countdownUpdate chancesDefault c3St 0).rng.floats
         ((countdownUpdate chancesDefault c3St 0).rng.fi + 1) <
         chancesDefault.SKIP_DIM →
       (tubeStep chancesDefault c3St 0).1.state.getD 0 Mat.off = Mat.half) ∧
     (¬ (countdownUpdate chancesDefault c3St 0).rng.floats
         ((countdownUpdate chancesDefault c3St 0).rng.fi + 1) <
         chancesDefault.SKIP_DIM →
       (tubeStep chancesDefault c3St 0).1.state.getD 0 Mat.off =
         (countdownUpdate chancesDefault c3St 0).state.getD 0 Mat.off)) ∧
    (countdownUpdate chancesDefault c3St 0).state.getD 0 Mat.off = Mat.on :=
  ⟨C3_theorem chancesDefault c3St 0 (by decide) (by decide) (by decide) (by decide),
   by decide⟩

/-- C4: the scheduler pop strictly prioritises the fresh queue: a
non-empty fresh queue is popped from its head with the refresh queue
untouched; an empty fresh queue falls back to the refresh pop; and with
fresh holding `5, 3, 7` (push order) and refresh holding `1`, four
successive pops yield `5, 3, 7, 1`. -/
theorem C4_theorem :
    (∀ (x : ℕ) (xs : List ℕ) (r : Queue), schedPop ⟨x :: xs⟩ r = (some x, ⟨xs⟩, r)) ∧
    (∀ (r : Queue), schedPop ⟨[]⟩ r = ((r.pop).1, ⟨[]⟩, (r.pop).2)) ∧
    drainN 4 (((Queue.empty.push 5).push 3).push 7) (Queue.empty.push 1) =
      [some 5, some 3, some 7, some 1] := by
  refine ⟨fun x xs r => rfl, fun r => ?_, by decide⟩
  rcases r with ⟨rd⟩
  cases rd <;> rfl

/-- C5: the dedup queue contract: pushing a present value is a no-op,
pushing an absent value appends it at the tail, pushing the same absent
value `n ≥ 1` times leaves exactly one occurrence, popping the empty
queue returns the `None` sentinel, popping a non-empty queue removes and
returns the head (first-occurrence FIFO), and the push sequence
`5, 3, 5, 7, 3` yields exactly `[5, 3, 7]`. -/
theorem C5_theorem :
    (∀ (q : Queue) (v : ℕ), v ∈ q.data → q.push v = q) ∧
    (∀ (q : Queue) (v : ℕ), v ∉ q.data → (q.push v).data = q.data ++ [v]) ∧
    (∀ (q : Queue) (v : ℕ) (n : ℕ), 1 ≤ n → v ∉ q.data →
      (pushN q v n).data.count v = 1) ∧
    Queue.pop ⟨[]⟩ = (none, ⟨[]⟩) ∧
    (∀ (x : ℕ) (xs : List ℕ), Queue.pop ⟨x :: xs⟩ = (some x, ⟨xs⟩)) ∧
    (((((Queue.empty.push 5).push 3).push 5).push 7).push 3).data = [5, 3, 7] := by
  refine ⟨?_, ?_, pushN_count, rfl, fun x xs => rfl, by decide⟩
  · intro q v h
    unfold Queue.push
    rw [if_pos h]
  · intro q v h
    unfold Queue.push
    rw [if_neg h]

/-- C5 witness: pushing `4` three times into the empty queue leaves one
occurrence. -/
theorem C5_witness : (pushN Queue.empty 4 3).data.count 4 = 1 :=
  C5_theorem.2.2.1 Queue.empty 4 3 (by norm_num) (by decide)

/-- C8: every duration sampled when a tube starts a flicker lies in
`[DURATION_MIN, DURATION_MAX]` inclusive; and with the defaults
(`DURATION_MIN = 0`) a start can sample duration `0`, in which case the
flicker resolves in the very frame it starts: tube 0 shows a
single-frame HALF flash, its countdown stays `0`, and in the next frame
it is ON again. -/
theorem C8_theorem :
    (∀ (c : Chances) (st : FlickerSt) (i : ℕ),
        i < st.durations.length → c.DURATION_MIN ≤ c.DURATION_MAX →
        (tubeStep c st i).2 = true →
        c.DURATION_MIN ≤ (tubeStep c st i).1.durations.getD i 0 ∧
        (tubeStep c st i).1.durations.getD i 0 ≤ c.DURATION_MAX) ∧
    ((frameStep chancesDefault c8St).2.getD 0 false = true ∧
     (frameStep chancesDefault c8St).1.durations.getD 0 0 = 0 ∧
     (frameStep chancesDefault c8St).1.state.getD 0 Mat.off = Mat.half ∧
     (frameStep chancesDefault (frameStep chancesDefault c8St).1).1.state.getD 0
       Mat.off = Mat.on) := by
  constructor
  · intro c st i hid hmm hstart
    by_cases hg : startGuard c (countdownUpdate c st i) i = true
    · simp only [tubeStep, hg, if_true]
      unfold startUpdate
      have hlen : i < (countdownUpdate c st i).bumpF.durations.length := by
        simpa [FlickerSt.bumpF, countdownUpdate_durations_length] using hid
      split_ifs <;>
      · dsimp only
        rw [getD_set_self _ _ _ _ hlen]
        exact randint_le _ _ _ hmm
    · simp [tubeStep, hg] at hstart
  · decide

/-- C8 witness: tube 0 of `c8St` starts a flicker and its sampled
duration lies in the default bounds `[0, 5]`. -/
theorem C8_witness :
    chancesDefault.DURATION_MIN ≤ (tubeStep chancesDefault c8St 0).1.durations.getD 0 0 ∧
    (tubeStep chancesDefault c8St 0).1.durations.getD 0 0 ≤ chancesDefault.DURATION_MAX :=
  C8_theorem.1 chancesDefault c8St 0 (by decide) (by decide) (by decide)

/-- C9 counterexample: in the iteration the loop body runs when both
queues are empty, no idle suspension action occurs — the body is the
two pops and nothing else, so the loop busy-spins instead of suspending
between emptiness checks. -/
theorem C9_counterexample :
    Action.sleep ∉ iterationTrace Queue.empty Queue.empty ∧
    iterationTrace Queue.empty Queue.empty = [Action.popFresh, Action.popRefresh] := by
  decide

/-- C9 (amended): when both queues are empty the worker-loop body
performs only the two pops and immediately retries — it never suspends
(no sleep action ever appears in any iteration trace) — and it runs a
popped entry as soon as one is available, the fresh queue first. -/
theorem C9_theorem :
    iterationTrace Queue.empty Queue.empty = [Action.popFresh, Action.popRefresh] ∧
    (∀ (f r : Queue), Action.sleep ∉ iterationTrace f r) ∧
    (∀ (n : ℕ) (xs : List ℕ) (r : Queue),
        iterationTrace ⟨n :: xs⟩ r = [Action.popFresh, Action.awaitJob n]) ∧
    (∀ (n : ℕ) (xs : List ℕ),
        iterationTrace ⟨[]⟩ ⟨n :: xs⟩ =
          [Action.popFresh, Action.popRefresh, Action.awaitJob n]) := by
  refine ⟨by decide, ?_, fun n xs r => rfl, fun n xs => rfl⟩
  intro f r
  rcases f with ⟨fd⟩
  rcases r with ⟨rd⟩
  cases fd <;> cases rd <;> simp [iterationTrace, Queue.pop]

/-- C2 counterexample: with `10` and `15` cached but `11` neither
cached nor staged, the lookahead window `[10, 15]` is *not* fully
present, yet a request for `10` enqueues nothing into the fresh queue
and puts `10` into the refresh queue: the router only tests the
requested value and the far window member `V+LOOKAHEAD`, not every
window member. -/
theorem C2_counterexample :
    (11 ∉ (Store.mk [] [10, 15]).cache ∧ 11 ∉ (Store.mk [] [10, 15]).staging) ∧
    (serve 5 (Store.mk [] [10, 15]) Queue.empty Queue.empty 10).fresh.data = [] ∧
    (serve 5 (Store.mk [] [10, 15]) Queue.empty Queue.empty 10).refresh.data = [10] := by
  decide

/-- C2 (amended): on a request for `V` the router checks only whether
`V` itself is durably cached (after promoting any staged copy) and
whether `V+LOOKAHEAD` is present in staging or cache; if either check
fails it enqueues every value of `[V, V+LOOKAHEAD]` not already cached
or staged into the fresh queue (refresh untouched), and only if both
hold does it enqueue `V` alone into the refresh queue (fresh
untouched). -/
theorem C2_theorem (L : ℕ) (st : Store) (fresh refresh : Queue) (v : ℕ) :
    (¬ ((v ∈ st.cache ∨ v ∈ st.staging) ∧ ((v + L) ∈ st.staging ∨ (v + L) ∈ st.cache)) →
      (serve L st fresh refresh v).refresh = refresh ∧
      (∀ w, v ≤ w → w ≤ v + L → w ∉ st.cache → w ∉ st.staging →
        w ∈ (serve L st fresh refresh v).fresh.data)) ∧
    (((v ∈ st.cache ∨ v ∈ st.staging) ∧ ((v + L) ∈ st.staging ∨ (v + L) ∈ st.cache)) →
      (serve L st fresh refresh v).fresh = fresh ∧
      (serve L st fresh refresh v).refresh = refresh.push v) := by
  constructor
  · intro hmiss
    have hcond : v ∉ (promote st v).cache ∨
        ¬ ((v + L) ∈ st.staging ∨ (v + L) ∈ st.cache) := by
      rcases not_and_or.mp hmiss with h | h
      · left
        rw [mem_promote_cache]
        exact h
      · right
        exact h
    constructor
    · simp only [serve]
      rw [if_pos hcond]
    · intro w hw1 hw2 hwc hws
      simp only [serve]
      rw [if_pos hcond]
      obtain ⟨hc2, hs2⟩ := not_mem_promote st v w hwc hws
      exact renderCall_mem _ _ _ _ ((mem_window L v w).mpr ⟨hw1, hw2⟩) hc2 hs2
  · intro hhit
    have hcond : ¬ (v ∉ (promote st v).cache ∨
        ¬ ((v + L) ∈ st.staging ∨ (v + L) ∈ st.cache)) := by
      push_neg
      exact ⟨(mem_promote_cache st v).mpr hhit.1, hhit.2⟩
    constructor <;>
    · simp only [serve]
      rw [if_neg hcond]

/-- C2 witness: a fully cold request for `10` with `LOOKAHEAD = 5`
leaves the refresh queue alone and enqueues the uncached window member
`12` into the fresh queue. -/
theorem C2_witness :
    12 ∈ (serve 5 (Store.mk [] []) Queue.empty Queue.empty 10).fresh.data :=
  ((C2_theorem 5 (Store.mk [] []) Queue.empty Queue.empty 10).1 (by decide)).2
    12 (by norm_num) (by norm_num) (by decide) (by decide)

/-- C6: when the popped job raises, the worker iteration leaves the
filesystem untouched (in particular no cache entry appears for the
value), appends the error to the log, and simply carries the advanced
queues into the next iteration — the job is dropped, not retried, and
the loop does not terminate. -/
theorem C6_theorem (runJob : ℕ → Store → Except String Store) (s : WorkerState)
    (n : ℕ) (e : String)
    (hpop : (schedPop s.fresh s.refresh).1 = some n)
    (hfail : runJob n s.store = .error e) :
    (processIteration runJob s).store = s.store ∧
    (processIteration runJob s).log = s.log ++ [e] ∧
    (processIteration runJob s).fresh = (schedPop s.fresh s.refresh).2.1 ∧
    (processIteration runJob s).refresh = (schedPop s.fresh s.refresh).2.2 ∧
    (n ∉ s.store.cache → n ∉ (processIteration runJob s).store.cache) := by
  rcases hsp : schedPop s.fresh s.refresh with ⟨no, f2, r2⟩
  rw [hsp] at hpop
  dsimp only at hpop
  subst hpop
  simp only [processIteration, hsp, hfail]
  exact ⟨trivial, trivial, trivial, trivial, fun h => h⟩

/-- C6 witness: a single fresh job `7` whose run always raises `"boom"`
is popped, logged and dropped; the store stays empty. -/
theorem C6_witness :
    (processIteration (fun _ _ => Except.error "boom") c6S).store = c6S.store ∧
    (processIteration (fun _ _ => Except.error "boom") c6S).log = c6S.log ++ ["boom"] ∧
    (processIteration (fun _ _ => Except.error "boom") c6S).fresh =
      (schedPop c6S.fresh c6S.refresh).2.1 ∧
    (processIteration (fun _ _ => Except.error "boom") c6S).refresh =
      (schedPop c6S.fresh c6S.refresh).2.2 ∧
    (7 ∉ c6S.store.cache →
      7 ∉ (processIteration (fun _ _ => Except.error "boom") c6S).store.cache) :=
  C6_theorem (fun _ _ => Except.error "boom") c6S 7 "boom" (by decide) rfl

/-- C7: the constructor's update loop writes every supplied pair into
the attribute literally named `k` (`self.chances.k = v`), so no matter
what mapping is supplied, the flicker constants keep their defaults
`START = 0.01`, `SKIP_DIM = 0.5`, `DURATION_MIN = 0`,
`DURATION_MAX = 5`; the concrete conjunct shows where the supplied
value actually went. -/
theorem C7_theorem (updates : List (String × ℚ)) :
    (applyChances chancesDefault updates).START = 1/100 ∧
    (applyChances chancesDefault updates).SKIP_DIM = 1/2 ∧
    (applyChances chancesDefault updates).DURATION_MIN = 0 ∧
    (applyChances chancesDefault updates).DURATION_MAX = 5 ∧
    (applyChances chancesDefault [("START", 2)]).k = some 2 := by
  have key : ∀ (us : List (String × ℚ)) (base : Chances),
      (applyChances base us).START = base.START ∧
      (applyChances base us).SKIP_DIM = base.SKIP_DIM ∧
      (applyChances base us).DURATION_MIN = base.DURATION_MIN ∧
      (applyChances base us).DURATION_MAX = base.DURATION_MAX := by
    intro us
    induction us with
    | nil => exact fun base => ⟨rfl, rfl, rfl, rfl⟩
    | cons u us ih =>
      intro base
      simpa [applyChances] using ih { base with k := some u.2 }
  obtain ⟨h1, h2, h3, h4⟩ := key updates chancesDefault
  refine ⟨?_, ?_, h3, h4, rfl⟩
  · rw [h1]
    show (⟨1, 100, by norm_num, by norm_num⟩ : ℚ) = 1/100
    rw [Rat.mk'_eq_divInt]
    norm_num [Rat.divInt_eq_div]
  · rw [h2]
    show (⟨1, 2, by norm_num, by norm_num⟩ : ℚ) = 1/2
    rw [Rat.mk'_eq_divInt]
    norm_num [Rat.divInt_eq_div]

/-- C10: every value of at least `10 ^ DIGITS` (nine or more decimal
digits) makes `set_display_number` raise, so `animate_display` fails on
its very first frame — zero frames are rendered and the filesystem is
unchanged, hence no asset is ever staged or cached for it — while
`serve` still accepts the request, enqueues the value into the fresh
queue, and answers with the `404` not-yet-available response. -/
theorem C10_theorem (n : ℕ) (hn : 10 ^ DIGITS ≤ n) :
    set_display_number n = .error (tooManyDigitsMsg n) ∧
    (∀ (c : Chances) (total : ℕ) (rng : Rng) (st : Store), 1 ≤ total →
        (animate_display c total n rng st).1 = (0, some (tooManyDigitsMsg n)) ∧
        (animate_display c total n rng st).2 = st) ∧
    (∀ (L : ℕ) (st : Store) (fresh refresh : Queue),
        n ∉ st.cache → n ∉ st.staging →
        (serve L st fresh refresh n).notFound = true ∧
        n ∈ (serve L st fresh refresh n).fresh.data) := by
  have hlen : DIGITS < max (decLen n) DIGITS := by
    have h9 : 8 + 1 ≤ decLen n := pow_le_decLen 8 n (by simpa [DIGITS] using hn)
    simp only [DIGITS]
    omega
  have herr : set_display_number n = .error (tooManyDigitsMsg n) := by
    unfold set_display_number
    rw [if_pos hlen]
  refine ⟨herr, ?_, ?_⟩
  · intro c total rng st htot
    obtain ⟨k, rfl⟩ : ∃ k, total = k + 1 := ⟨total - 1, by omega⟩
    constructor <;>
    · simp only [animate_display, animateLoop, herr]
  · intro L st fresh refresh hc hs
    have hnp : promote st n = st := by
      unfold promote
      rw [if_neg hs]
    have hcond : n ∉ (promote st n).cache ∨
        ¬ ((n + L) ∈ st.staging ∨ (n + L) ∈ st.cache) := by
      left
      rw [hnp]
      exact hc
    constructor
    · simp only [serve]
      rw [if_pos hcond]
      simp [hnp, hc]
    · simp only [serve]
      rw [if_pos hcond]
      rw [hnp]
      exact renderCall_mem _ _ _ _ ((mem_window L n n).mpr ⟨le_refl n, by omega⟩) hc hs

/-- C10 witness: the nine-digit value `10^8` itself: the guard raises
and a request for it is enqueued yet answered `404`. -/
theorem C10_witness :
    set_display_number 100000000 = .error (tooManyDigitsMsg 100000000) ∧
    (serve 5 (Store.mk [] []) Queue.empty Queue.empty 100000000).notFound = true :=
  ⟨(C10_theorem 100000000 (by norm_num [DIGITS])).1,
   ((C10_theorem 100000000 (by norm_num [DIGITS])).2.2 5 (Store.mk [] [])
      Queue.empty Queue.empty (by decide) (by decide)).1⟩

end DC
